import Mathlib

/-!
Verification of the client-side RPC session of this repository
(`ClientSession` and its inner classes in
`src/libDLogStorage/FilesystemStorageModule.cc`, lines 231-728).

The session state, the call-record registry and every handler body are
translated directly from the source.  Machine integers (`uint64_t` counters
`nextMessageId` and `numActiveRPCs`) are modelled as `Nat` with explicit
reduction modulo `2 ^ 64`.  Side effects other than mutation of the session
fields (frames handed to the message socket, condition-variable
notifications, timer scheduling) are returned as an explicit effect list.
-/

set_option maxHeartbeats 1000000

namespace LogCabinRPC

/-- Payload bytes of a frame (`Buffer` in the source). -/
abbrev Buffer := List Nat

/-- `2 ^ 64`, the modulus of the `uint64_t` counters in the source. -/
abbrev U64 : Nat := 18446744073709551616

/-- The `++` of a `uint64_t` counter. -/
def inc64 (x : Nat) : Nat := (x + 1) % U64

/-- The `--` of a `uint64_t` counter (wraps to `2 ^ 64 - 1` at zero). -/
def dec64 (x : Nat) : Nat := (x + (U64 - 1)) % U64

/-- `TIMEOUT_MS * 1000 * 1000`, the nanosecond value passed to
`timer.schedule` throughout the source (`TIMEOUT_MS = 100`). -/
abbrev TIMEOUT_NS : Nat := 100 * 1000 * 1000

/-- The message ID reserved for ping messages (source line 277). -/
abbrev PING_MESSAGE_ID : Nat := 0

/-- `ClientSession::Response::Status` (source: `WAITING`, `HAS_REPLY`,
`CANCELED`). -/
inductive RStatus where
  | WAITING
  | HAS_REPLY
  | CANCELED
deriving DecidableEq, Repr

/-- `OpaqueClientRPC::Status` as observed through `ClientSession::update`
(`OK`, `ERROR`, `CANCELED`) plus the initial unresolved state. -/
inductive HStatus where
  | PENDING
  | OK
  | ERROR
  | CANCELED
deriving DecidableEq, Repr

/-- `ClientSession::Response` (source lines 401-409): one call record. -/
structure Response where
  status : RStatus
  reply : Buffer
  hasWaiter : Bool
deriving DecidableEq, Repr

/-- The mutable state of a `ClientSession` (source lines 461-476).
`messageSocket` records whether the message socket slot is occupied, which
never changes after construction. -/
structure SessionState where
  address : String
  messageSocket : Bool
  nextMessageId : Nat
  responses : List (Nat × Response)
  errorMessage : String
  numActiveRPCs : Nat
  activePing : Bool
deriving DecidableEq, Repr

/-- The caller-held `OpaqueClientRPC` handle: a session reference,
the message-id token and the result fields. -/
structure Handle where
  hasSession : Bool
  responseToken : Nat
  status : HStatus
  reply : Buffer
  errorMessage : String
deriving DecidableEq, Repr

/-- Side effects of a handler body other than session-field mutation:
frames handed to the message socket, condition-variable notifications
(identified by the token of the notified call record) and timer operations. -/
inductive Effect where
  | sendFrame (messageId : Nat) (payload : Buffer)
  | notify (token : Nat)
  | timerSchedule (ns : Nat)
  | timerDeschedule
deriving DecidableEq, Repr

/-- Key lookup in an association list; models `std::map::find`. -/
def findA {α : Type} : List (Nat × α) → Nat → Option α
  | [], _ => none
  | (k, v) :: rest, k' => if k = k' then some v else findA rest k'

/-- Replace the value stored at a key (the key must be present for this to
have an effect); models mutation through a `std::map` iterator. -/
def setA {α : Type} (l : List (Nat × α)) (k : Nat) (v : α) : List (Nat × α) :=
  l.map (fun p => if p.1 = k then (k, v) else p)

/-- Remove the binding of a key; models `std::map::erase`. -/
def eraseA {α : Type} (l : List (Nat × α)) (k : Nat) : List (Nat × α) :=
  l.filter (fun p => p.1 != k)

/-- Bind a key to a value; models `map[k] = v` (replacing any previous
binding). -/
def insertA {α : Type} (l : List (Nat × α)) (k : Nat) (v : α) : List (Nat × α) :=
  (k, v) :: eraseA l k

/-- The number of call records whose status is still `WAITING`; the
specification's reading of `active_count`. -/
def countWaiting (s : SessionState) : Nat :=
  (s.responses.filter (fun p => p.2.status == RStatus.WAITING)).length

/-- `ClientSession::ClientMessageSocket::onReceiveMessage`
(source lines 327-379).  Returns the updated session state and the emitted
effects. -/
def onReceiveMessage (messageId : Nat) (message : Buffer) (s : SessionState) :
    SessionState × List Effect :=
  if messageId = PING_MESSAGE_ID then
    if 0 < s.numActiveRPCs ∧ s.activePing = true then
      ({ s with activePing := false }, [Effect.timerSchedule TIMEOUT_NS])
    else
      (s, [])
  else
    match findA s.responses messageId with
    | none => (s, [])
    | some response =>
      if response.status = RStatus.HAS_REPLY then
        (s, [])
      else
        ({ s with
            numActiveRPCs := dec64 s.numActiveRPCs
            responses := (setA s.responses messageId
              { response with status := RStatus.HAS_REPLY, reply := message }) },
         (if dec64 s.numActiveRPCs = 0 then [Effect.timerDeschedule]
          else [Effect.timerSchedule TIMEOUT_NS]) ++ [Effect.notify messageId])

/-- `ClientSession::ClientMessageSocket::onDisconnect` (source lines
381-399). -/
def onDisconnect (s : SessionState) : SessionState × List Effect :=
  if s.errorMessage = "" then
    ({ s with errorMessage := "Disconnected from server " ++ s.address },
     s.responses.map (fun p => Effect.notify p.1))
  else
    (s, [])

/-- `ClientSession::Timer::handleTimerEvent` (source lines 419-452). -/
def handleTimerEvent (s : SessionState) : SessionState × List Effect :=
  if s.messageSocket = false ∨ s.numActiveRPCs = 0 ∨ s.errorMessage ≠ "" then
    (s, [])
  else if s.activePing = false then
    ({ s with activePing := true },
     [Effect.sendFrame PING_MESSAGE_ID [], Effect.timerSchedule TIMEOUT_NS])
  else
    ({ s with errorMessage := "Server " ++ s.address ++ " timed out" },
     s.responses.map (fun p => Effect.notify p.1))

/-- `ClientSession::sendRequest` (source lines 582-607).  Returns the new
session state, the returned `OpaqueClientRPC` handle and the emitted
effects. -/
def sendRequest (request : Buffer) (s : SessionState) :
    SessionState × Handle × List Effect :=
  ({ s with
      nextMessageId := inc64 s.nextMessageId
      responses := (insertA s.responses s.nextMessageId
        { status := RStatus.WAITING, reply := [], hasWaiter := false })
      numActiveRPCs := inc64 s.numActiveRPCs
      activePing := if inc64 s.numActiveRPCs = 1 then false else s.activePing },
   { hasSession := true
     responseToken := s.nextMessageId
     status := HStatus.PENDING
     reply := []
     errorMessage := "" },
   (if inc64 s.numActiveRPCs = 1 then [Effect.timerSchedule TIMEOUT_NS] else [])
     ++ (if s.messageSocket = true
         then [Effect.sendFrame s.nextMessageId request] else []))

/-- `ClientSession::cancel` (source lines 628-659); `tok` is
`rpc.responseToken`, the only handle field the method reads. -/
def cancel (tok : Nat) (s : SessionState) : SessionState × List Effect :=
  match findA s.responses tok with
  | none => (s, [])
  | some response =>
    if response.hasWaiter = true then
      ({ s with
          responses := (setA s.responses tok
            { response with status := RStatus.CANCELED })
          numActiveRPCs := dec64 s.numActiveRPCs },
       [Effect.notify tok])
    else
      ({ s with
          responses := eraseA s.responses tok
          numActiveRPCs := dec64 s.numActiveRPCs },
       [])

/-- `ClientSession::update` (source lines 661-693).  Returns the updated
handle and session state. -/
def update (rpc : Handle) (s : SessionState) : Handle × SessionState :=
  match findA s.responses rpc.responseToken with
  | none => (rpc, s)
  | some response =>
    if response.status = RStatus.HAS_REPLY then
      ({ rpc with
          reply := response.reply
          status := HStatus.OK
          hasSession := false },
       { s with responses := eraseA s.responses rpc.responseToken })
    else if s.errorMessage ≠ "" then
      ({ rpc with
          errorMessage := s.errorMessage
          status := HStatus.ERROR
          hasSession := false },
       { s with responses := eraseA s.responses rpc.responseToken })
    else
      (rpc, s)

/-- The assertion conditions of `ClientSession::update` (source lines 673
and 686): a missing record entails a `Canceled` handle, and a record that is
neither `HAS_REPLY` nor resolvable through a session error is never
`CANCELED`. -/
def updateAssertsHold (rpc : Handle) (s : SessionState) : Prop :=
  (findA s.responses rpc.responseToken = none → rpc.status = HStatus.CANCELED) ∧
  (∀ r, findA s.responses rpc.responseToken = some r →
    r.status ≠ RStatus.HAS_REPLY → s.errorMessage = "" →
    r.status ≠ RStatus.CANCELED)

/-- Outcome of one iteration of the loop in `ClientSession::wait`: the
reason the method returns, or the decision to block on the record's
condition variable. -/
inductive WaitOutcome where
  | retNone
  | retHasReply
  | retCanceled
  | retError
  | retTimeout
  | blocked
deriving DecidableEq, Repr

/-- One iteration of the loop body of `ClientSession::wait` (source lines
695-725).  `timedOut` models the value of `timeout < Clock::now()`.  The
handle is returned alongside to record that the method takes it by `const`
reference: only `rpc.responseToken` is read and nothing is written. -/
def waitIter (rpc : Handle) (timedOut : Bool) (s : SessionState) :
    Handle × WaitOutcome × SessionState :=
  match findA s.responses rpc.responseToken with
  | none => (rpc, WaitOutcome.retNone, s)
  | some response =>
    if response.status = RStatus.HAS_REPLY then
      (rpc, WaitOutcome.retHasReply, s)
    else if response.status = RStatus.CANCELED then
      (rpc, WaitOutcome.retCanceled,
       { s with responses := eraseA s.responses rpc.responseToken })
    else if s.errorMessage ≠ "" then
      (rpc, WaitOutcome.retError, s)
    else if timedOut = true then
      (rpc, WaitOutcome.retTimeout, s)
    else
      (rpc, WaitOutcome.blocked,
       { s with responses := (setA s.responses rpc.responseToken
           { response with hasWaiter := true }) })

/-- Resumption of a waiter blocked inside `ClientSession::wait`: on waking
from `ready.wait_until` the thread clears `hasWaiter` (source line 723) and
re-runs the loop body. -/
def waitResume (rpc : Handle) (timedOut : Bool) (s : SessionState) :
    Handle × WaitOutcome × SessionState :=
  match findA s.responses rpc.responseToken with
  | none => (rpc, WaitOutcome.retNone, s)
  | some response =>
    waitIter rpc timedOut
      { s with responses := (setA s.responses rpc.responseToken
          { response with hasWaiter := false }) }

/-- A session together with the caller-held handles issued by its
`sendRequest`, keyed by their tokens. -/
structure GState where
  sess : SessionState
  handles : List (Nat × Handle)
deriving DecidableEq, Repr

/-- The atomic mutex-protected critical sections that can act on a session:
inbound frame dispatch, the disconnect notification, a timer expiry and the
caller operations.  `waitEnter` is the loop body of `wait` running up to its
first return or block; `waitWake` is a blocked waiter resuming.  `timedOut`
models the deadline comparison at that iteration. -/
inductive GEvent where
  | send (request : Buffer)
  | recv (messageId : Nat) (message : Buffer)
  | disconnect
  | timerFire
  | cancelRpc (tok : Nat)
  | updateRpc (tok : Nat)
  | waitEnter (tok : Nat) (timedOut : Bool)
  | waitWake (tok : Nat) (timedOut : Bool)
deriving DecidableEq, Repr

/-- One event applied to a session and its handles.  The session handlers
are the translations above.  Modelled from the spec: the caller-side handle
wrapper (`OpaqueClientRPC`), whose source is not part of this repository
slice, mediates `cancelRpc`, `updateRpc` and `waitEnter` — per spec §4.8
each delegates to the session only while the handle still holds a session
reference, per §4.5/scenario 4 cancelling leaves the handle `Canceled` and
drops its reference, and per §4.3/§8 a resolved (drained) handle makes these
operations no-ops.  A `waitWake` happens only to a thread already blocked on
the record's condition variable (`hasWaiter` set) and does not consult the
wrapper, matching the waiter continuing inside `ClientSession::wait`. -/
def gstep : GEvent → GState → GState × List Effect
  | GEvent.send request, g =>
    ({ sess := (sendRequest request g.sess).1
       handles := insertA g.handles
         (sendRequest request g.sess).2.1.responseToken
         (sendRequest request g.sess).2.1 },
     (sendRequest request g.sess).2.2)
  | GEvent.recv messageId message, g =>
    ({ g with sess := (onReceiveMessage messageId message g.sess).1 },
     (onReceiveMessage messageId message g.sess).2)
  | GEvent.disconnect, g =>
    ({ g with sess := (onDisconnect g.sess).1 }, (onDisconnect g.sess).2)
  | GEvent.timerFire, g =>
    ({ g with sess := (handleTimerEvent g.sess).1 },
     (handleTimerEvent g.sess).2)
  | GEvent.cancelRpc tok, g =>
    match findA g.handles tok with
    | none => (g, [])
    | some h =>
      if h.hasSession = true then
        ({ sess := (cancel h.responseToken g.sess).1
           handles := (setA g.handles tok
             { h with status := HStatus.CANCELED, hasSession := false }) },
         (cancel h.responseToken g.sess).2)
      else (g, [])
  | GEvent.updateRpc tok, g =>
    match findA g.handles tok with
    | none => (g, [])
    | some h =>
      if h.hasSession = true then
        ({ sess := (update h g.sess).2
           handles := setA g.handles tok (update h g.sess).1 }, [])
      else (g, [])
  | GEvent.waitEnter tok timedOut, g =>
    match findA g.handles tok with
    | none => (g, [])
    | some h =>
      if h.hasSession = true then
        ({ g with sess := (waitIter h timedOut g.sess).2.2 }, [])
      else (g, [])
  | GEvent.waitWake tok timedOut, g =>
    match findA g.handles tok with
    | none => (g, [])
    | some h =>
      match findA g.sess.responses h.responseToken with
      | none => (g, [])
      | some response =>
        if response.hasWaiter = true then
          ({ g with sess := (waitResume h timedOut g.sess).2.2 }, [])
        else (g, [])

/-- A session state as the constructor leaves it (source lines 461-476):
`nextMessageId = 1`, empty registry, `numActiveRPCs = 0`, `activePing`
false; `messageSocket` and `errorMessage` record the outcome of the connect
phase. -/
def initS (messageSocket : Bool) (errorMessage : String) (address : String) :
    SessionState :=
  { address := address
    messageSocket := messageSocket
    nextMessageId := 1
    responses := []
    errorMessage := errorMessage
    numActiveRPCs := 0
    activePing := false }

/-- A freshly constructed session with no handles issued yet. -/
def initG (messageSocket : Bool) (errorMessage : String) (address : String) :
    GState :=
  { sess := initS messageSocket errorMessage address, handles := [] }

/-- Reachability: a connected session, a born-failed session, or any state
obtained from a reachable one by an event. -/
inductive Reachable : GState → Prop where
  | conn (address : String) : Reachable (initG true "" address)
  | bornFailed (address errorMessage : String) (h : errorMessage ≠ "") :
      Reachable (initG false errorMessage address)
  | step (g : GState) (e : GEvent) (h : Reachable g) :
      Reachable (gstep e g).1

/-- Apply a sequence of events, discarding the effects. -/
def applyEvents (es : List GEvent) (g : GState) : GState :=
  es.foldl (fun g e => (gstep e g).1) g

/-- The cancellation/reply race: a request is sent (token 1), a waiter
blocks on it, the call is cancelled (record marked `CANCELED`, waiter
notified), and then the server's reply frame for token 1 is delivered. -/
def raceEvents : List GEvent :=
  [GEvent.send [65], GEvent.waitEnter 1 false, GEvent.cancelRpc 1,
   GEvent.recv 1 [114]]

/-- The state after the cancellation/reply race, starting from a connected
session. -/
def raceState : GState := applyEvents raceEvents (initG true "" "srv")

/-- Session state after `n` further calls to `sendRequest` (with an empty
request payload, which `sendRequest`'s registry bookkeeping ignores). -/
def afterSends : Nat → SessionState → SessionState
  | 0, s => s
  | n + 1, s => (sendRequest [] (afterSends n s)).1

/-- An absent message socket is only ever paired with a non-empty error
(the constructor installs the socket exactly on the success path). -/
def SocketInv (g : GState) : Prop :=
  g.sess.messageSocket = false → g.sess.errorMessage ≠ ""

/-- Consistency between issued handles and the call-record registry: a
handle is stored under its own token, and while it still holds a session
reference its record is never `CANCELED` and can only be missing if the
handle itself was cancelled. -/
def Inv (g : GState) : Prop :=
  ∀ tok h, findA g.handles tok = some h →
    h.responseToken = tok ∧
    (h.hasSession = true →
      (∀ r, findA g.sess.responses tok = some r →
        r.status ≠ RStatus.CANCELED) ∧
      (findA g.sess.responses tok = none → h.status = HStatus.CANCELED))

/-- Relation between two registries in which every record either is
untouched, keeps its status or moves to `HAS_REPLY`, or is dropped while
`CANCELED`. -/
def PointwiseResp (s s' : SessionState) : Prop :=
  ∀ tok,
    findA s'.responses tok = findA s.responses tok ∨
    (∃ r r', findA s.responses tok = some r ∧
      findA s'.responses tok = some r' ∧
      (r'.status = r.status ∨ r'.status = RStatus.HAS_REPLY)) ∨
    (∃ r, findA s.responses tok = some r ∧ r.status = RStatus.CANCELED ∧
      findA s'.responses tok = none)

section AssocLemmas

variable {α : Type}

theorem findA_eraseA (l : List (Nat × α)) (k k' : Nat) :
    findA (eraseA l k) k' = if k = k' then none else findA l k' := by
  induction l with
  | nil => by_cases hk : k = k' <;> simp [eraseA, findA, hk]
  | cons p rest ih =>
    obtain ⟨a, b⟩ := p
    by_cases ha : a = k
    · have h1 : eraseA ((a, b) :: rest) k = eraseA rest k := by
        simp [eraseA, ha]
      rw [h1, ih]
      by_cases hk : k = k'
      · simp [hk]
      · have hak : a ≠ k' := by omega
        simp [hk, findA, hak]
    · have h1 : eraseA ((a, b) :: rest) k = (a, b) :: eraseA rest k := by
        simp [eraseA, ha]
      rw [h1]
      by_cases hak : a = k'
      · have hk : k ≠ k' := by omega
        simp [findA, hak, hk]
      · simp [findA, hak, ih]

theorem findA_insertA (l : List (Nat × α)) (k k' : Nat) (v : α) :
    findA (insertA l k v) k' = if k = k' then some v else findA l k' := by
  by_cases hk : k = k' <;> simp [insertA, findA, hk, findA_eraseA]

theorem findA_setA (l : List (Nat × α)) (k k' : Nat) (v : α) :
    findA (setA l k v) k' =
      if k = k' then (findA l k').map (fun _ => v) else findA l k' := by
  induction l with
  | nil => by_cases hk : k = k' <;> simp [setA, findA, hk]
  | cons p rest ih =>
    obtain ⟨a, b⟩ := p
    by_cases ha : a = k
    · have h1 : setA ((a, b) :: rest) k v = (k, v) :: setA rest k v := by
        simp [setA, ha]
      rw [h1]
      by_cases hk : k = k'
      · subst hk
        subst ha
        simp [findA]
      · have hak : a ≠ k' := by omega
        simp [findA, hk, hak, ih]
    · have h1 : setA ((a, b) :: rest) k v = (a, b) :: setA rest k v := by
        simp [setA, ha]
      rw [h1]
      by_cases hak : a = k'
      · have hk : k ≠ k' := by omega
        simp [findA, hak, hk]
      · simp [findA, hak, ih]

end AssocLemmas

section FrameLemmas

theorem onReceiveMessage_errorMessage (messageId : Nat) (message : Buffer)
    (s : SessionState) :
    (onReceiveMessage messageId message s).1.errorMessage = s.errorMessage := by
  unfold onReceiveMessage
  split
  · split <;> rfl
  · split
    · rfl
    · split <;> rfl

theorem onReceiveMessage_messageSocket (messageId : Nat) (message : Buffer)
    (s : SessionState) :
    (onReceiveMessage messageId message s).1.messageSocket =
      s.messageSocket := by
  unfold onReceiveMessage
  split
  · split <;> rfl
  · split
    · rfl
    · split <;> rfl

theorem onDisconnect_responses (s : SessionState) :
    (onDisconnect s).1.responses = s.responses := by
  unfold onDisconnect
  split <;> rfl

theorem onDisconnect_messageSocket (s : SessionState) :
    (onDisconnect s).1.messageSocket = s.messageSocket := by
  unfold onDisconnect
  split <;> rfl

theorem onDisconnect_of_error (s : SessionState) (h : s.errorMessage ≠ "") :
    onDisconnect s = (s, []) := by
  unfold onDisconnect
  rw [if_neg h]

theorem handleTimerEvent_responses (s : SessionState) :
    (handleTimerEvent s).1.responses = s.responses := by
  unfold handleTimerEvent
  split
  · rfl
  · split <;> rfl

theorem handleTimerEvent_messageSocket (s : SessionState) :
    (handleTimerEvent s).1.messageSocket = s.messageSocket := by
  unfold handleTimerEvent
  split
  · rfl
  · split <;> rfl

theorem handleTimerEvent_of_error (s : SessionState) (h : s.errorMessage ≠ "") :
    handleTimerEvent s = (s, []) := by
  unfold handleTimerEvent
  rw [if_pos (Or.inr (Or.inr h))]

theorem cancel_errorMessage (tok : Nat) (s : SessionState) :
    (cancel tok s).1.errorMessage = s.errorMessage := by
  unfold cancel
  split
  · rfl
  · split <;> rfl

theorem cancel_messageSocket (tok : Nat) (s : SessionState) :
    (cancel tok s).1.messageSocket = s.messageSocket := by
  unfold cancel
  split
  · rfl
  · split <;> rfl

theorem cancel_find_ne (k tok : Nat) (s : SessionState) (h : k ≠ tok) :
    findA (cancel k s).1.responses tok = findA s.responses tok := by
  unfold cancel
  split
  · rfl
  · split <;> simp [findA_setA, findA_eraseA, h]

theorem update_errorMessage (rpc : Handle) (s : SessionState) :
    (update rpc s).2.errorMessage = s.errorMessage := by
  unfold update
  split
  · rfl
  · split
    · rfl
    · split <;> rfl

theorem update_messageSocket (rpc : Handle) (s : SessionState) :
    (update rpc s).2.messageSocket = s.messageSocket := by
  unfold update
  split
  · rfl
  · split
    · rfl
    · split <;> rfl

theorem update_responseToken (rpc : Handle) (s : SessionState) :
    (update rpc s).1.responseToken = rpc.responseToken := by
  unfold update
  split
  · rfl
  · split
    · rfl
    · split <;> rfl

/-- `update` either leaves both the handle and the session untouched, or
resolves the handle (dropping its session reference) and erases exactly the
handle's record. -/
theorem update_dichotomy (rpc : Handle) (s : SessionState) :
    update rpc s = (rpc, s) ∨
    ((update rpc s).1.hasSession = false ∧
      (update rpc s).2.responses = eraseA s.responses rpc.responseToken) := by
  unfold update
  split
  · exact Or.inl rfl
  · split
    · exact Or.inr ⟨rfl, rfl⟩
    · split
      · exact Or.inr ⟨rfl, rfl⟩
      · exact Or.inl rfl

theorem waitIter_fst (rpc : Handle) (timedOut : Bool) (s : SessionState) :
    (waitIter rpc timedOut s).1 = rpc := by
  unfold waitIter
  split
  · rfl
  · split
    · rfl
    · split
      · rfl
      · split
        · rfl
        · split <;> rfl

theorem waitIter_errorMessage (rpc : Handle) (timedOut : Bool)
    (s : SessionState) :
    (waitIter rpc timedOut s).2.2.errorMessage = s.errorMessage := by
  unfold waitIter
  split
  · rfl
  · split
    · rfl
    · split
      · rfl
      · split
        · rfl
        · split <;> rfl

theorem waitIter_messageSocket (rpc : Handle) (timedOut : Bool)
    (s : SessionState) :
    (waitIter rpc timedOut s).2.2.messageSocket = s.messageSocket := by
  unfold waitIter
  split
  · rfl
  · split
    · rfl
    · split
      · rfl
      · split
        · rfl
        · split <;> rfl

theorem waitResume_errorMessage (rpc : Handle) (timedOut : Bool)
    (s : SessionState) :
    (waitResume rpc timedOut s).2.2.errorMessage = s.errorMessage := by
  unfold waitResume
  split
  · rfl
  · rw [waitIter_errorMessage]

theorem waitResume_messageSocket (rpc : Handle) (timedOut : Bool)
    (s : SessionState) :
    (waitResume rpc timedOut s).2.2.messageSocket = s.messageSocket := by
  unfold waitResume
  split
  · rfl
  · rw [waitIter_messageSocket]

end FrameLemmas

section StepLemmas

/-- No event changes whether the message socket is present. -/
theorem gstep_messageSocket (e : GEvent) (g : GState) :
    (gstep e g).1.sess.messageSocket = g.sess.messageSocket := by
  cases e with
  | send request => rfl
  | recv messageId message => exact onReceiveMessage_messageSocket ..
  | disconnect => exact onDisconnect_messageSocket ..
  | timerFire => exact handleTimerEvent_messageSocket ..
  | cancelRpc tok =>
    simp only [gstep]
    split
    · rfl
    · split
      · exact cancel_messageSocket ..
      · rfl
  | updateRpc tok =>
    simp only [gstep]
    split
    · rfl
    · split
      · exact update_messageSocket ..
      · rfl
  | waitEnter tok timedOut =>
    simp only [gstep]
    split
    · rfl
    · split
      · exact waitIter_messageSocket ..
      · rfl
  | waitWake tok timedOut =>
    simp only [gstep]
    split
    · rfl
    · split
      · rfl
      · split
        · exact waitResume_messageSocket ..
        · rfl

/-- Once the session error is non-empty, no event changes the string. -/
theorem gstep_errorMessage_stable (e : GEvent) (g : GState)
    (h : g.sess.errorMessage ≠ "") :
    (gstep e g).1.sess.errorMessage = g.sess.errorMessage := by
  cases e with
  | send request => rfl
  | recv messageId message => exact onReceiveMessage_errorMessage ..
  | disconnect =>
    show (onDisconnect g.sess).1.errorMessage = _
    rw [onDisconnect_of_error g.sess h]
  | timerFire =>
    show (handleTimerEvent g.sess).1.errorMessage = _
    rw [handleTimerEvent_of_error g.sess h]
  | cancelRpc tok =>
    simp only [gstep]
    split
    · rfl
    · split
      · exact cancel_errorMessage ..
      · rfl
  | updateRpc tok =>
    simp only [gstep]
    split
    · rfl
    · split
      · exact update_errorMessage ..
      · rfl
  | waitEnter tok timedOut =>
    simp only [gstep]
    split
    · rfl
    · split
      · exact waitIter_errorMessage ..
      · rfl
  | waitWake tok timedOut =>
    simp only [gstep]
    split
    · rfl
    · split
      · rfl
      · split
        · exact waitResume_errorMessage ..
        · rfl

/-- Every reachable state keeps `SocketInv`: an absent socket is paired
with a non-empty error. -/
theorem reachable_socketInv (g : GState) (h : Reachable g) : SocketInv g := by
  induction h with
  | conn address => intro hs; exact absurd hs (by simp [initG, initS])
  | bornFailed address errorMessage hne => intro _; exact hne
  | step g e _ ih =>
    intro hs
    rw [gstep_messageSocket] at hs
    have := ih hs
    rw [gstep_errorMessage_stable e g this]
    exact this

end StepLemmas

section InvLemmas

theorem pointwise_of_eq (s s' : SessionState)
    (h : s'.responses = s.responses) : PointwiseResp s s' := by
  intro tok
  rw [h]
  exact Or.inl rfl

theorem pointwise_trans (s₁ s₂ s₃ : SessionState)
    (h12 : PointwiseResp s₁ s₂) (h23 : PointwiseResp s₂ s₃) :
    PointwiseResp s₁ s₃ := by
  intro tok
  rcases h12 tok with he | ⟨r, r', hr, hr', hst⟩ | ⟨r, hr, hst, hnone⟩
  · rcases h23 tok with he2 | ⟨q, q', hq, hq', hqst⟩ | ⟨q, hq, hqst, hqnone⟩
    · exact Or.inl (he2.trans he)
    · exact Or.inr (Or.inl ⟨q, q', he ▸ hq, hq', hqst⟩)
    · exact Or.inr (Or.inr ⟨q, he ▸ hq, hqst, hqnone⟩)
  · rcases h23 tok with he2 | ⟨q, q', hq, hq', hqst⟩ | ⟨q, hq, hqst, hqnone⟩
    · exact Or.inr (Or.inl ⟨r, r', hr, he2.trans hr', hst⟩)
    · rw [hr'] at hq
      injection hq with hq
      subst hq
      refine Or.inr (Or.inl ⟨r, q', hr, hq', ?_⟩)
      rcases hqst with h1 | h1
      · rcases hst with h2 | h2
        · exact Or.inl (h1.trans h2)
        · exact Or.inr (h1.trans h2)
      · exact Or.inr h1
    · rw [hr'] at hq
      injection hq with hq
      subst hq
      refine Or.inr (Or.inr ⟨r, hr, ?_, hqnone⟩)
      rcases hst with h2 | h2
      · exact h2 ▸ hqst
      · rw [hqst] at h2
        cases h2
  · rcases h23 tok with he2 | ⟨q, q', hq, hq', hqst⟩ | ⟨q, hq, hqst, hqnone⟩
    · exact Or.inr (Or.inr ⟨r, hr, hst, he2.trans hnone⟩)
    · rw [hnone] at hq
      cases hq
    · rw [hnone] at hq
      cases hq

theorem pointwise_onReceiveMessage (messageId : Nat) (message : Buffer)
    (s : SessionState) :
    PointwiseResp s (onReceiveMessage messageId message s).1 := by
  unfold onReceiveMessage
  split
  · split
    · intro tok; exact Or.inl rfl
    · intro tok; exact Or.inl rfl
  · split
    · intro tok; exact Or.inl rfl
    · rename_i response heq
      split
      · intro tok; exact Or.inl rfl
      · intro tok
        by_cases htok : messageId = tok
        · subst htok
          refine Or.inr (Or.inl ⟨response,
            { response with status := RStatus.HAS_REPLY, reply := message },
            heq, ?_, Or.inr rfl⟩)
          simp [findA_setA, heq]
        · exact Or.inl (by simp [findA_setA, htok])

theorem pointwise_waitIter (rpc : Handle) (timedOut : Bool)
    (s : SessionState) :
    PointwiseResp s (waitIter rpc timedOut s).2.2 := by
  unfold waitIter
  split
  · intro tok; exact Or.inl rfl
  · rename_i response heq
    split
    · intro tok; exact Or.inl rfl
    · split
      · rename_i hcanc
        intro tok
        by_cases htok : rpc.responseToken = tok
        · subst htok
          exact Or.inr (Or.inr ⟨response, heq, hcanc,
            by simp [findA_eraseA]⟩)
        · exact Or.inl (by simp [findA_eraseA, htok])
      · split
        · intro tok; exact Or.inl rfl
        · split
          · intro tok; exact Or.inl rfl
          · intro tok
            by_cases htok : rpc.responseToken = tok
            · subst htok
              refine Or.inr (Or.inl ⟨response,
                { response with hasWaiter := true }, heq, ?_, Or.inl rfl⟩)
              simp [findA_setA, heq]
            · exact Or.inl (by simp [findA_setA, htok])

theorem pointwise_waitResume (rpc : Handle) (timedOut : Bool)
    (s : SessionState) :
    PointwiseResp s (waitResume rpc timedOut s).2.2 := by
  unfold waitResume
  split
  · intro tok; exact Or.inl rfl
  · rename_i response heq
    refine pointwise_trans s
      { s with responses := (setA s.responses rpc.responseToken
          { response with hasWaiter := false }) } _
      ?_ (pointwise_waitIter rpc timedOut _)
    intro tok
    by_cases htok : rpc.responseToken = tok
    · subst htok
      refine Or.inr (Or.inl ⟨response,
        { response with hasWaiter := false }, heq, ?_, Or.inl rfl⟩)
      simp [findA_setA, heq]
    · exact Or.inl (by simp [findA_setA, htok])

theorem inv_of_pointwise (g : GState) (s' : SessionState) (hg : Inv g)
    (hpt : PointwiseResp g.sess s') :
    Inv { sess := s', handles := g.handles } := by
  intro tok h hfind
  obtain ⟨hrt, hrest⟩ := hg tok h hfind
  refine ⟨hrt, fun hs => ?_⟩
  obtain ⟨hA, hB⟩ := hrest hs
  rcases hpt tok with he | ⟨r, r', hr, hr', hst⟩ | ⟨r, hr, hst, hnone⟩
  · constructor
    · intro r hr
      exact hA r (he ▸ hr)
    · intro hn
      exact hB (he ▸ hn)
  · constructor
    · intro q hq
      rw [hr'] at hq
      injection hq with hq
      subst hq
      rcases hst with h1 | h1
      · rw [h1]
        exact hA r hr
      · rw [h1]
        intro hc
        cases hc
    · intro hn
      rw [hr'] at hn
      cases hn
  · exact absurd hst (hA r hr)

/-- Every event preserves the handle/registry consistency invariant. -/
theorem inv_gstep (e : GEvent) (g : GState) (hg : Inv g) :
    Inv (gstep e g).1 := by
  cases e with
  | send request =>
    intro tok h hfind
    simp only [gstep, sendRequest] at hfind ⊢
    rw [findA_insertA] at hfind
    by_cases htok : g.sess.nextMessageId = tok
    · rw [if_pos htok] at hfind
      injection hfind with hfind
      subst hfind
      refine ⟨htok, fun _ => ⟨?_, ?_⟩⟩
      · intro r hr
        rw [findA_insertA, if_pos htok] at hr
        injection hr with hr
        subst hr
        simp
      · intro hn
        rw [findA_insertA, if_pos htok] at hn
        cases hn
    · rw [if_neg htok] at hfind
      obtain ⟨hrt, hrest⟩ := hg tok h hfind
      refine ⟨hrt, fun hs => ?_⟩
      obtain ⟨hA, hB⟩ := hrest hs
      constructor
      · intro r hr
        rw [findA_insertA, if_neg htok] at hr
        exact hA r hr
      · intro hn
        rw [findA_insertA, if_neg htok] at hn
        exact hB hn
  | recv messageId message =>
    exact inv_of_pointwise g _ hg (pointwise_onReceiveMessage messageId message g.sess)
  | disconnect =>
    exact inv_of_pointwise g _ hg
      (pointwise_of_eq _ _ (onDisconnect_responses g.sess))
  | timerFire =>
    exact inv_of_pointwise g _ hg
      (pointwise_of_eq _ _ (handleTimerEvent_responses g.sess))
  | cancelRpc tok0 =>
    simp only [gstep]
    split
    · exact hg
    · rename_i h0 heq0
      split
      · rename_i hs0
        intro tok h hfind
        have hrt0 := (hg tok0 h0 heq0).1
        rw [findA_setA] at hfind
        by_cases htok : tok0 = tok
        · subst htok
          rw [if_pos rfl, heq0] at hfind
          simp only [Option.map] at hfind
          injection hfind with hfind
          subst hfind
          refine ⟨hrt0, fun hs => ?_⟩
          simp at hs
        · rw [if_neg htok] at hfind
          obtain ⟨hrt, hrest⟩ := hg tok h hfind
          refine ⟨hrt, fun hs => ?_⟩
          obtain ⟨hA, hB⟩ := hrest hs
          have hne : h0.responseToken ≠ tok := by
            rw [hrt0]; exact htok
          constructor
          · intro r hr
            rw [cancel_find_ne _ _ _ hne] at hr
            exact hA r hr
          · intro hn
            rw [cancel_find_ne _ _ _ hne] at hn
            exact hB hn
      · exact hg
  | updateRpc tok0 =>
    simp only [gstep]
    split
    · exact hg
    · rename_i h0 heq0
      split
      · rename_i hs0
        intro tok h hfind
        have hrt0 := (hg tok0 h0 heq0).1
        rw [findA_setA] at hfind
        rcases update_dichotomy h0 g.sess with hid | ⟨hres, hresp⟩
        · rw [hid] at hfind ⊢
          by_cases htok : tok0 = tok
          · subst htok
            rw [if_pos rfl, heq0] at hfind
            simp only [Option.map] at hfind
            injection hfind with hfind
            subst hfind
            exact hg tok0 h0 heq0
          · rw [if_neg htok] at hfind
            exact hg tok h hfind
        · by_cases htok : tok0 = tok
          · subst htok
            rw [if_pos rfl, heq0] at hfind
            simp only [Option.map] at hfind
            injection hfind with hfind
            subst hfind
            refine ⟨by rw [update_responseToken]; exact hrt0, fun hs => ?_⟩
            rw [hres] at hs
            cases hs
          · rw [if_neg htok] at hfind
            obtain ⟨hrt, hrest⟩ := hg tok h hfind
            refine ⟨hrt, fun hs => ?_⟩
            obtain ⟨hA, hB⟩ := hrest hs
            have hne : h0.responseToken ≠ tok := by
              rw [hrt0]; exact htok
            constructor
            · intro r hr
              rw [hresp, findA_eraseA, if_neg hne] at hr
              exact hA r hr
            · intro hn
              rw [hresp, findA_eraseA, if_neg hne] at hn
              exact hB hn
      · exact hg
  | waitEnter tok0 timedOut =>
    simp only [gstep]
    split
    · exact hg
    · rename_i h0 heq0
      split
      · exact inv_of_pointwise g _ hg (pointwise_waitIter h0 timedOut g.sess)
      · exact hg
  | waitWake tok0 timedOut =>
    simp only [gstep]
    split
    · exact hg
    · rename_i h0 heq0
      split
      · exact hg
      · rename_i response heqr
        split
        · exact inv_of_pointwise g _ hg (pointwise_waitResume h0 timedOut g.sess)
        · exact hg

/-- Every reachable state satisfies the handle/registry invariant. -/
theorem reachable_inv (g : GState) (h : Reachable g) : Inv g := by
  induction h with
  | conn address =>
    intro tok h hfind
    exact absurd hfind (by simp [initG, findA])
  | bornFailed address errorMessage hne =>
    intro tok h hfind
    exact absurd hfind (by simp [initG, findA])
  | step g e _ ih =>
    exact inv_gstep e g ih

end InvLemmas

section SendIdLemmas

/-- After `n` sends the message-id counter holds its initial value plus `n`,
reduced modulo `2 ^ 64` (a plain wrapping increment, with no skip over 0). -/
theorem afterSends_nextMessageId (n : Nat) (s : SessionState)
    (h : s.nextMessageId < U64) :
    (afterSends n s).nextMessageId = (s.nextMessageId + n) % U64 := by
  induction n with
  | zero =>
    show s.nextMessageId = (s.nextMessageId + 0) % U64
    rw [Nat.add_zero, Nat.mod_eq_of_lt h]
  | succ n ih =>
    show inc64 (afterSends n s).nextMessageId = _
    rw [ih]
    unfold inc64
    rw [Nat.mod_add_mod, Nat.add_assoc]

end SendIdLemmas

section ClaimTheorems

/-- C1: the cancellation/reply race is not safe in the code.  After
[send (token 1); waiter blocks; cancel] the record for token 1 is
`CANCELED`, still registered and marked as having a waiter; the subsequent
delivery of the reply frame `(1, [114])` then overwrites the record to
`HAS_REPLY` with the payload — `onReceiveMessage` drops a frame only when
the record is missing or already `HAS_REPLY`, so the later reply does
change the record's `Canceled` status, contradicting the claim. -/
theorem C1_canceled_record_overwritten :
    findA (applyEvents (raceEvents.take 3)
        (initG true "" "srv")).sess.responses 1 =
      some { status := RStatus.CANCELED, reply := [], hasWaiter := true } ∧
    findA raceState.sess.responses 1 =
      some { status := RStatus.HAS_REPLY, reply := [114], hasWaiter := true } := by
  constructor
  · decide
  · decide

/-- C2: the invariant `active_count = number of WAITING records` fails on
the cancellation/reply race: `cancel` decrements `numActiveRPCs` once and
`onReceiveMessage` decrements it again for the same (by then `CANCELED`)
call, underflowing the `uint64_t` counter from 0 to `2 ^ 64 - 1` while no
record is `WAITING`. -/
theorem C2_active_count_mismatch :
    raceState.sess.numActiveRPCs = U64 - 1 ∧
    countWaiting raceState.sess = 0 ∧
    raceState.sess.numActiveRPCs ≠ countWaiting raceState.sess := by
  refine ⟨by decide, by decide, by decide⟩

/-- C3 counterexample: the increment of `next_message_id` does not skip 0
on wrap.  Starting from a fresh session, after `2 ^ 64 - 1` sends the
counter has wrapped to 0, so the `2 ^ 64`-th `sendRequest` assigns the
reserved ping id 0 to a call — refuting the claim as stated. -/
theorem C3_wrap_assigns_zero :
    (sendRequest [] (afterSends (U64 - 1)
        (initS true "" "srv"))).2.1.responseToken = 0 := by
  show (afterSends (U64 - 1) (initS true "" "srv")).nextMessageId = 0
  rw [afterSends_nextMessageId (U64 - 1) (initS true "" "srv") (by decide)]
  decide

/-- C3 amended: before the counter wraps — that is, for the first
`2 ^ 64 - 1` calls of a session — every assigned message id is nonzero and
strictly greater than every id assigned earlier (the id of the `k`-th send
is exactly `k`). -/
theorem C3_ids_increasing (sock : Bool) (err addr : String) (m n : Nat)
    (hmn : m < n) (hn : n < U64 - 1) :
    0 < (sendRequest [] (afterSends m (initS sock err addr))).2.1.responseToken ∧
    0 < (sendRequest [] (afterSends n (initS sock err addr))).2.1.responseToken ∧
    (sendRequest [] (afterSends m (initS sock err addr))).2.1.responseToken <
      (sendRequest [] (afterSends n (initS sock err addr))).2.1.responseToken := by
  have hid : ∀ k : Nat, k < U64 - 1 →
      (sendRequest [] (afterSends k (initS sock err addr))).2.1.responseToken
        = 1 + k := by
    intro k hk
    show (afterSends k (initS sock err addr)).nextMessageId = 1 + k
    rw [afterSends_nextMessageId k (initS sock err addr)
      (by show (1 : Nat) < U64; decide)]
    show (1 + k) % U64 = 1 + k
    apply Nat.mod_eq_of_lt
    omega
  rw [hid m (by omega), hid n hn]
  omega

/-- Witness for the amended C3 at the first two sends: ids 1 and 2. -/
theorem C3_ids_increasing_witness :
    0 < (sendRequest [] (afterSends 0 (initS true "" "srv"))).2.1.responseToken ∧
    0 < (sendRequest [] (afterSends 1 (initS true "" "srv"))).2.1.responseToken ∧
    (sendRequest [] (afterSends 0 (initS true "" "srv"))).2.1.responseToken <
      (sendRequest [] (afterSends 1 (initS true "" "srv"))).2.1.responseToken :=
  C3_ids_increasing true "" "srv" 0 1 (by decide) (by decide)

/-- C4: the session error is terminal and the first error wins — whenever
`error` is non-empty, no event (inbound frame, disconnect, timer expiry, or
caller operation) changes the string, and a timer expiry performs no state
change and emits no effect. -/
theorem C4_error_terminal (e : GEvent) (g : GState)
    (h : g.sess.errorMessage ≠ "") :
    (gstep e g).1.sess.errorMessage = g.sess.errorMessage ∧
    gstep GEvent.timerFire g = (g, []) := by
  refine ⟨gstep_errorMessage_stable e g h, ?_⟩
  show ({ g with sess := (handleTimerEvent g.sess).1 },
    (handleTimerEvent g.sess).2) = (g, [])
  rw [handleTimerEvent_of_error g.sess h]

/-- Witness for C4 on a born-failed session hit by a disconnect event and a
timer expiry. -/
theorem C4_error_terminal_witness :
    (initG false "boom" "srv").sess.errorMessage ≠ "" ∧
    (gstep GEvent.disconnect (initG false "boom" "srv")).1.sess.errorMessage
      = "boom" ∧
    gstep GEvent.timerFire (initG false "boom" "srv")
      = (initG false "boom" "srv", []) := by
  have h : (initG false "boom" "srv").sess.errorMessage ≠ "" := by decide
  exact ⟨h, (C4_error_terminal GEvent.disconnect (initG false "boom" "srv") h).1,
    (C4_error_terminal GEvent.disconnect (initG false "boom" "srv") h).2⟩

/-- C5: on every reachable state the timer expiry follows the four-state
machine: with active calls, no error and no outstanding ping it sends the
ping frame `(0, empty)`, sets the ping flag and rearms for `TIMEOUT_MS`;
with active calls, no error and an outstanding ping it sets the error to
"Server <endpoint> timed out" and notifies every call's condition variable;
with no active calls or a non-empty error it does nothing. -/
theorem C5_timer_state_machine (g : GState) (hr : Reachable g) :
    (0 < g.sess.numActiveRPCs → g.sess.errorMessage = "" →
      g.sess.activePing = false →
      gstep GEvent.timerFire g =
        ({ g with sess := { g.sess with activePing := true } },
         [Effect.sendFrame PING_MESSAGE_ID [],
          Effect.timerSchedule TIMEOUT_NS])) ∧
    (0 < g.sess.numActiveRPCs → g.sess.errorMessage = "" →
      g.sess.activePing = true →
      gstep GEvent.timerFire g =
        ({ g with sess := { g.sess with
             errorMessage := "Server " ++ g.sess.address ++ " timed out" } },
         g.sess.responses.map (fun p => Effect.notify p.1))) ∧
    ((g.sess.numActiveRPCs = 0 ∨ g.sess.errorMessage ≠ "") →
      gstep GEvent.timerFire g = (g, [])) := by
  have hsock := reachable_socketInv g hr
  refine ⟨?_, ?_, ?_⟩
  · intro ha he hp
    have hs : g.sess.messageSocket = true := by
      cases hms : g.sess.messageSocket
      · exact absurd he (hsock hms)
      · rfl
    show ({ g with sess := (handleTimerEvent g.sess).1 },
      (handleTimerEvent g.sess).2) = _
    unfold handleTimerEvent
    rw [if_neg (by simp [hs, he]; omega), if_pos hp]
  · intro ha he hp
    have hs : g.sess.messageSocket = true := by
      cases hms : g.sess.messageSocket
      · exact absurd he (hsock hms)
      · rfl
    show ({ g with sess := (handleTimerEvent g.sess).1 },
      (handleTimerEvent g.sess).2) = _
    unfold handleTimerEvent
    rw [if_neg (by simp [hs, he]; omega), if_neg (by simp [hp])]
  · intro hd
    show ({ g with sess := (handleTimerEvent g.sess).1 },
      (handleTimerEvent g.sess).2) = (g, [])
    unfold handleTimerEvent
    rcases hd with h0 | herr
    · rw [if_pos (Or.inr (Or.inl h0))]
    · rw [if_pos (Or.inr (Or.inr herr))]

/-- Witness for C5: after one send on a connected session the timer expiry
emits the ping frame and rearms. -/
theorem C5_timer_state_machine_witness :
    (gstep GEvent.timerFire
        (gstep (GEvent.send []) (initG true "" "srv")).1).2 =
      [Effect.sendFrame PING_MESSAGE_ID [],
       Effect.timerSchedule TIMEOUT_NS] := by
  have hr : Reachable (gstep (GEvent.send []) (initG true "" "srv")).1 :=
    Reachable.step (initG true "" "srv") (GEvent.send [])
      (Reachable.conn "srv")
  have h := (C5_timer_state_machine _ hr).1 (by decide) (by decide) (by decide)
  rw [h]

/-- C6: for an inbound frame with `message_id > 0`, a missing record or one
already `HAS_REPLY` makes the frame a dropped no-op (session, registry and
handles unchanged, no effects); otherwise the payload is moved into the
record, its status becomes `HAS_REPLY`, `numActiveRPCs` is decremented, the
timer is descheduled when the count reaches zero and rearmed to
`TIMEOUT_MS` otherwise, and the record's condition variable is notified. -/
theorem C6_inbound_dispatch (g : GState) (messageId : Nat) (message : Buffer)
    (hid : 0 < messageId) :
    (findA g.sess.responses messageId = none →
      gstep (GEvent.recv messageId message) g = (g, [])) ∧
    (∀ r, findA g.sess.responses messageId = some r →
      r.status = RStatus.HAS_REPLY →
      gstep (GEvent.recv messageId message) g = (g, [])) ∧
    (∀ r, findA g.sess.responses messageId = some r →
      r.status ≠ RStatus.HAS_REPLY →
      gstep (GEvent.recv messageId message) g =
        ({ g with sess := { g.sess with
             numActiveRPCs := dec64 g.sess.numActiveRPCs
             responses := (setA g.sess.responses messageId
               { r with status := RStatus.HAS_REPLY, reply := message }) } },
         (if dec64 g.sess.numActiveRPCs = 0 then [Effect.timerDeschedule]
          else [Effect.timerSchedule TIMEOUT_NS])
           ++ [Effect.notify messageId])) := by
  have hnp : ¬ messageId = PING_MESSAGE_ID := by
    show ¬ messageId = 0
    omega
  refine ⟨?_, ?_, ?_⟩
  · intro hnone
    show ({ g with sess := (onReceiveMessage messageId message g.sess).1 },
      (onReceiveMessage messageId message g.sess).2) = (g, [])
    unfold onReceiveMessage
    rw [if_neg hnp]
    split
    · rfl
    · rename_i response heq
      exact absurd (hnone.symm.trans heq) (by simp)
  · intro r hr hst
    show ({ g with sess := (onReceiveMessage messageId message g.sess).1 },
      (onReceiveMessage messageId message g.sess).2) = (g, [])
    unfold onReceiveMessage
    rw [if_neg hnp]
    split
    · rename_i heq
      exact absurd (hr.symm.trans heq) (by simp)
    · rename_i response heq
      rw [hr] at heq
      injection heq with heq
      subst heq
      rw [if_pos hst]
  · intro r hr hst
    show ({ g with sess := (onReceiveMessage messageId message g.sess).1 },
      (onReceiveMessage messageId message g.sess).2) = _
    unfold onReceiveMessage
    rw [if_neg hnp]
    split
    · rename_i heq
      exact absurd (hr.symm.trans heq) (by simp)
    · rename_i response heq
      rw [hr] at heq
      injection heq with heq
      subst heq
      rw [if_neg hst]

/-- Witness for C6: delivering `(1, [7])` after one send resolves the
record and, with the count back at zero, deschedules the timer and notifies
the waiting record. -/
theorem C6_inbound_dispatch_witness :
    (gstep (GEvent.recv 1 [7])
        (gstep (GEvent.send [5]) (initG true "" "srv")).1).2 =
      [Effect.timerDeschedule, Effect.notify 1] := by
  have h := (C6_inbound_dispatch
      (gstep (GEvent.send [5]) (initG true "" "srv")).1 1 [7]
      (by decide)).2.2
    { status := RStatus.WAITING, reply := [], hasWaiter := false }
    (by decide) (by decide)
  rw [h]
  decide

/-- C7: `update` resolves a call exactly as specified — a `HAS_REPLY`
record moves its reply into the handle (status `OK`), otherwise a non-empty
session error is copied into the handle (status `ERROR`); both resolutions
drop the handle's session reference and erase the record; with neither, the
handle and session are left untouched; and once a handle is resolved (its
session reference dropped), a further update is a no-op. -/
theorem C7_update_resolution (rpc : Handle) (s : SessionState) (g : GState)
    (tok : Nat) :
    (∀ r, findA s.responses rpc.responseToken = some r →
      r.status = RStatus.HAS_REPLY →
      update rpc s =
        ({ rpc with
            reply := r.reply
            status := HStatus.OK
            hasSession := false },
         { s with responses := eraseA s.responses rpc.responseToken })) ∧
    (∀ r, findA s.responses rpc.responseToken = some r →
      r.status ≠ RStatus.HAS_REPLY → s.errorMessage ≠ "" →
      update rpc s =
        ({ rpc with
            errorMessage := s.errorMessage
            status := HStatus.ERROR
            hasSession := false },
         { s with responses := eraseA s.responses rpc.responseToken })) ∧
    (∀ r, findA s.responses rpc.responseToken = some r →
      r.status ≠ RStatus.HAS_REPLY → s.errorMessage = "" →
      update rpc s = (rpc, s)) ∧
    (∀ h, findA g.handles tok = some h → h.hasSession = false →
      gstep (GEvent.updateRpc tok) g = (g, [])) := by
  refine ⟨?_, ?_, ?_, ?_⟩
  · intro r hr hst
    unfold update
    split
    · rename_i heq
      exact absurd (hr.symm.trans heq) (by simp)
    · rename_i response heq
      rw [hr] at heq
      injection heq with heq
      subst heq
      rw [if_pos hst]
  · intro r hr hst herr
    unfold update
    split
    · rename_i heq
      exact absurd (hr.symm.trans heq) (by simp)
    · rename_i response heq
      rw [hr] at heq
      injection heq with heq
      subst heq
      rw [if_neg hst, if_pos herr]
  · intro r hr hst herr
    unfold update
    split
    · rename_i heq
      exact absurd (hr.symm.trans heq) (by simp)
    · rename_i response heq
      rw [hr] at heq
      injection heq with heq
      subst heq
      rw [if_neg hst, if_neg (by simp [herr])]
  · intro h hfind hs
    simp only [gstep]
    split
    · rfl
    · rename_i h0 heq0
      rw [hfind] at heq0
      injection heq0 with heq0
      subst heq0
      rw [if_neg (by simp [hs])]

/-- Witness for C7: after one send and its reply on a connected session,
`update` yields an `OK` handle carrying the reply. -/
theorem C7_update_resolution_witness :
    update
      { hasSession := true
        responseToken := 1
        status := HStatus.PENDING
        reply := []
        errorMessage := "" }
      (gstep (GEvent.recv 1 [9])
        (gstep (GEvent.send [5]) (initG true "" "srv")).1).1.sess =
      ({ hasSession := false
         responseToken := 1
         status := HStatus.OK
         reply := [9]
         errorMessage := "" },
       { (gstep (GEvent.recv 1 [9])
            (gstep (GEvent.send [5]) (initG true "" "srv")).1).1.sess with
          responses := [] }) := by
  have h := (C7_update_resolution
      { hasSession := true
        responseToken := 1
        status := HStatus.PENDING
        reply := []
        errorMessage := "" }
      (gstep (GEvent.recv 1 [9])
        (gstep (GEvent.send [5]) (initG true "" "srv")).1).1.sess
      (initG true "" "srv") 0).1
    { status := RStatus.HAS_REPLY, reply := [9], hasWaiter := false }
    (by decide) (by decide)
  rw [h]
  decide

/-- C8: the assertions in `update` are valid in every reachable state: for
any issued handle that still holds its session reference, a missing record
entails that the handle's status is `Canceled`, and a record that is
neither `HAS_REPLY` nor resolvable through a session error is never
`CANCELED`. -/
theorem C8_update_asserts_valid (g : GState) (tok : Nat) (h : Handle)
    (hr : Reachable g) (hfind : findA g.handles tok = some h)
    (hs : h.hasSession = true) :
    updateAssertsHold h g.sess := by
  have hinv := reachable_inv g hr
  obtain ⟨hrt, hrest⟩ := hinv tok h hfind
  obtain ⟨hA, hB⟩ := hrest hs
  constructor
  · intro hn
    rw [hrt] at hn
    exact hB hn
  · intro r hrr _ _
    rw [hrt] at hrr
    exact hA r hrr

/-- Witness for C8: the handle issued by the first send on a connected
session satisfies both assertion conditions. -/
theorem C8_update_asserts_valid_witness :
    updateAssertsHold
      { hasSession := true
        responseToken := 1
        status := HStatus.PENDING
        reply := []
        errorMessage := "" }
      (gstep (GEvent.send []) (initG true "" "srv")).1.sess :=
  C8_update_asserts_valid
    (gstep (GEvent.send []) (initG true "" "srv")).1 1 _
    (Reachable.step (initG true "" "srv") (GEvent.send [])
      (Reachable.conn "srv"))
    (by decide) (by decide)

/-- C9: one iteration of `wait` never mutates the handle (which it takes
by `const` reference) and returns exactly when the record is gone, has a
reply, was cancelled (removing that record before returning), the session
has an error, or the deadline has passed; otherwise it blocks, setting the
record's `hasWaiter` flag. -/
theorem C9_wait_frame (rpc : Handle) (timedOut : Bool) (s : SessionState) :
    (waitIter rpc timedOut s).1 = rpc ∧
    (findA s.responses rpc.responseToken = none →
      waitIter rpc timedOut s = (rpc, WaitOutcome.retNone, s)) ∧
    (∀ r, findA s.responses rpc.responseToken = some r →
      r.status = RStatus.HAS_REPLY →
      waitIter rpc timedOut s = (rpc, WaitOutcome.retHasReply, s)) ∧
    (∀ r, findA s.responses rpc.responseToken = some r →
      r.status = RStatus.CANCELED →
      waitIter rpc timedOut s = (rpc, WaitOutcome.retCanceled,
        { s with responses := eraseA s.responses rpc.responseToken })) ∧
    (∀ r, findA s.responses rpc.responseToken = some r →
      r.status = RStatus.WAITING → s.errorMessage ≠ "" →
      waitIter rpc timedOut s = (rpc, WaitOutcome.retError, s)) ∧
    (∀ r, findA s.responses rpc.responseToken = some r →
      r.status = RStatus.WAITING → s.errorMessage = "" → timedOut = true →
      waitIter rpc timedOut s = (rpc, WaitOutcome.retTimeout, s)) ∧
    (∀ r, findA s.responses rpc.responseToken = some r →
      r.status = RStatus.WAITING → s.errorMessage = "" → timedOut = false →
      waitIter rpc timedOut s = (rpc, WaitOutcome.blocked,
        { s with responses := (setA s.responses rpc.responseToken
            { r with hasWaiter := true }) })) := by
  refine ⟨waitIter_fst rpc timedOut s, ?_, ?_, ?_, ?_, ?_, ?_⟩
  · intro hnone
    unfold waitIter
    split
    · rfl
    · rename_i response heq
      exact absurd (hnone.symm.trans heq) (by simp)
  · intro r hr hst
    unfold waitIter
    split
    · rename_i heq
      exact absurd (hr.symm.trans heq) (by simp)
    · rename_i response heq
      rw [hr] at heq
      injection heq with heq
      subst heq
      rw [if_pos hst]
  · intro r hr hst
    unfold waitIter
    split
    · rename_i heq
      exact absurd (hr.symm.trans heq) (by simp)
    · rename_i response heq
      rw [hr] at heq
      injection heq with heq
      subst heq
      rw [if_neg (by simp [hst]), if_pos hst]
  · intro r hr hst herr
    unfold waitIter
    split
    · rename_i heq
      exact absurd (hr.symm.trans heq) (by simp)
    · rename_i response heq
      rw [hr] at heq
      injection heq with heq
      subst heq
      rw [if_neg (by simp [hst]), if_neg (by simp [hst]), if_pos herr]
  · intro r hr hst herr ht
    unfold waitIter
    split
    · rename_i heq
      exact absurd (hr.symm.trans heq) (by simp)
    · rename_i response heq
      rw [hr] at heq
      injection heq with heq
      subst heq
      rw [if_neg (by simp [hst]), if_neg (by simp [hst]),
        if_neg (by simp [herr]), if_pos ht]
  · intro r hr hst herr ht
    unfold waitIter
    split
    · rename_i heq
      exact absurd (hr.symm.trans heq) (by simp)
    · rename_i response heq
      rw [hr] at heq
      injection heq with heq
      subst heq
      rw [if_neg (by simp [hst]), if_neg (by simp [hst]),
        if_neg (by simp [herr]), if_neg (by simp [ht])]

/-- Witness for C9: on a record in `WAITING` state with no error and no
expired deadline, the iteration blocks and sets `hasWaiter`, returning the
handle untouched. -/
theorem C9_wait_frame_witness :
    waitIter
      { hasSession := true
        responseToken := 1
        status := HStatus.PENDING
        reply := []
        errorMessage := "" }
      false
      (gstep (GEvent.send [5]) (initG true "" "srv")).1.sess =
    ({ hasSession := true
       responseToken := 1
       status := HStatus.PENDING
       reply := []
       errorMessage := "" },
     WaitOutcome.blocked,
     { (gstep (GEvent.send [5]) (initG true "" "srv")).1.sess with
        responses :=
          [(1, { status := RStatus.WAITING, reply := [], hasWaiter := true })] }) := by
  have h := (C9_wait_frame
      { hasSession := true
        responseToken := 1
        status := HStatus.PENDING
        reply := []
        errorMessage := "" }
      false
      (gstep (GEvent.send [5]) (initG true "" "srv")).1.sess).2.2.2.2.2.2
    { status := RStatus.WAITING, reply := [], hasWaiter := false }
    (by decide) (by decide) (by decide) (by decide)
  rw [h]
  decide

/-- C10: `sendRequest` does not fail fast on a failed session: with a
non-empty error it still assigns the next message id, registers a `WAITING`
record, increments `numActiveRPCs`, arms the timer when the count becomes
1, hands the frame to the socket exactly when one exists, and returns a
`PENDING` handle that observes the error only once `update` is applied,
yielding status `ERROR` with the session's error string. -/
theorem C10_send_on_failed_session (s : SessionState) (request : Buffer)
    (herr : s.errorMessage ≠ "") :
    (sendRequest request s).2.1 =
      { hasSession := true
        responseToken := s.nextMessageId
        status := HStatus.PENDING
        reply := []
        errorMessage := "" } ∧
    findA (sendRequest request s).1.responses s.nextMessageId =
      some { status := RStatus.WAITING, reply := [], hasWaiter := false } ∧
    (sendRequest request s).1.numActiveRPCs = inc64 s.numActiveRPCs ∧
    (sendRequest request s).1.nextMessageId = inc64 s.nextMessageId ∧
    (sendRequest request s).2.2 =
      (if inc64 s.numActiveRPCs = 1
       then [Effect.timerSchedule TIMEOUT_NS] else [])
        ++ (if s.messageSocket = true
            then [Effect.sendFrame s.nextMessageId request] else []) ∧
    (update (sendRequest request s).2.1 (sendRequest request s).1).1 =
      { hasSession := false
        responseToken := s.nextMessageId
        status := HStatus.ERROR
        reply := []
        errorMessage := s.errorMessage } := by
  have hself : findA (sendRequest request s).1.responses
      (sendRequest request s).2.1.responseToken =
      some { status := RStatus.WAITING, reply := [], hasWaiter := false } := by
    show findA (insertA s.responses s.nextMessageId
      { status := RStatus.WAITING, reply := [], hasWaiter := false })
      s.nextMessageId = _
    rw [findA_insertA, if_pos rfl]
  refine ⟨rfl, hself, rfl, rfl, rfl, ?_⟩
  unfold update
  split
  · rename_i heq
    exact absurd (hself.symm.trans heq) (by simp)
  · rename_i response heq
    rw [hself] at heq
    injection heq with heq
    subst heq
    rw [if_neg (by simp), if_pos
      (show (sendRequest request s).1.errorMessage ≠ "" from herr)]
    rfl

/-- Witness for C10 on a born-failed session: the first send returns a
pending handle, and updating it afterwards yields an `ERROR` handle. -/
theorem C10_send_on_failed_session_witness :
    (initS false "boom" "srv").errorMessage ≠ "" ∧
    (update (sendRequest [7] (initS false "boom" "srv")).2.1
        (sendRequest [7] (initS false "boom" "srv")).1).1.status
      = HStatus.ERROR := by
  have h := C10_send_on_failed_session (initS false "boom" "srv") [7]
    (by decide)
  refine ⟨by decide, ?_⟩
  rw [h.2.2.2.2.2]

end ClaimTheorems

end LogCabinRPC
